import Mathlib

/-!
Shallow embedding of the omestr matchmaking/chat core, translated from the
TypeScript source:

* `src/lib/nostr/logger.ts` — the mock relay pool (`SimplePool`), its event
  handling (`handleNostrEvent`), `publish` retry loop, the event builder
  `publishMatchmakingEvent`, and `generateRandomString`;
* `src/lib/hooks/useNostrMatchmaking.ts` — the (second, revised) matchmaking
  hook: `subscribeToMatchmakingEvents` callback, `handleLookingMatch`,
  `handlePotentialMatch` (including its confirmation-timeout branch),
  `handleMatchConfirmation`, the chat subscription callback, and the
  server-polling variant's message merge;
* `src/app/api/matchmaking/route.ts` (and the enhanced variant) — the HTTP
  matchmaking endpoint `POST` handler.

Times are carried as `Int` milliseconds (JS `Date.now()`), event `created_at`
as `Int` unix seconds; JS string falsiness (`undefined` or `""`) is modelled
by `""` where the source only compares/branches on truthiness, and by
`Option String` where presence of a JSON field matters.
-/

namespace Omestr

/-- Custom event kind for matchmaking events (`OMESTR_KIND = 30078`). -/
def OMESTR_KIND : Nat := 30078

/-- Expiry window for matchmaking events in milliseconds
(`MATCH_EXPIRY = 2 * 60 * 1000`). -/
def MATCH_EXPIRY : Int := 2 * 60 * 1000

/-- Default relay endpoints configured in `logger.ts`. -/
def DEFAULT_RELAYS : List String :=
  ["wss://relay.damus.io", "wss://relay.nostr.band", "wss://nostr.plebchain.org",
   "wss://nos.lol", "wss://relay.snort.social", "wss://relay.current.fyi"]

/-- Wire-level event, from the `NostrEvent` interface in `logger.ts`. -/
structure NostrEvent where
  id : String
  kind : Nat
  created_at : Int
  tags : List (List String)
  content : String
  pubkey : String
  sig : String
deriving DecidableEq, Repr

/-- Value of the first tag whose key matches, defaulting to `""`:
`const t = event.tags.find(tag => tag[0] === key); t ? t[1] : ''`.
A missing second element behaves like `""` at every use site (the value is
only compared against non-empty literals or tested for truthiness). -/
def tagVal (tags : List (List String)) (key : String) : String :=
  (((tags.find? (fun t => t.head? == some key)).bind (fun t => t.get? 1)).getD "")

/-- Whether some tag is `['p', pk]`:
`event.tags.find(tag => tag[0] === 'p' && tag[1] === pk)` used as a boolean. -/
def hasPTag (tags : List (List String)) (pk : String) : Bool :=
  tags.any (fun t => t.head? == some "p" && t.get? 1 == some pk)

/-! ### `generateRandomString` (logger.ts lines 191–202 / index.ts lines 43–53)

Browser branch: `Array.from(crypto.getRandomValues(new Uint8Array(length)))
.map(b => b.toString(16).padStart(2, '0')).join('')`.
The randomness source is abstracted as the list of bytes delivered by
`getRandomValues` (one byte per requested length unit, each `< 256`).
SSR branch: `Array(length).fill(0).map(() => '0').join('')`. -/

/-- Lowercase hexadecimal digit character for `n < 16`, as produced by JS
`Number.prototype.toString(16)`. -/
def toHexDigit (n : Nat) : Char :=
  if n < 10 then Char.ofNat (48 + n) else Char.ofNat (87 + n)

/-- JS `b.toString(16).padStart(2, '0')` for a byte `b < 256`: exactly two
lowercase hex digits. -/
def byteToHexPadded (b : Nat) : String :=
  String.mk [toHexDigit (b / 16), toHexDigit (b % 16)]

/-- Browser branch of `generateRandomString`, applied to the bytes returned by
`crypto.getRandomValues(new Uint8Array(length))`. -/
def generateRandomStringBrowser (bytes : List Nat) : String :=
  String.join (bytes.map byteToHexPadded)

/-- SSR fallback branch of `generateRandomString`:
`Array(length).fill(0).map(() => '0').join('')`. -/
def generateRandomStringSSR (length : Nat) : String :=
  String.mk (List.replicate length '0')

/-- The sixteen lowercase hexadecimal digit characters. -/
def hexDigits : List Char := "0123456789abcdef".data

/-! ### `publishMatchmakingEvent` event construction (logger.ts lines 1103–1150)

The function signs nothing for real: `id` and `sig` are fresh random strings,
supplied here as parameters. `matchedPubkey`, `browserInstanceId` and
`chatSessionId` are optional in the source and tested for truthiness, so they
are carried as `String` with `""` for absent. When `browserInstanceId` is
falsy the source falls back to `getBrowserInstanceId()`, supplied here as
`fallbackBid`. `created_at = Math.floor(Date.now() / 1000)`; Lean `Int`
division floors, matching `Math.floor`. -/
def mkMatchmakingEvent (evId sig : String) (now : Int) (publicKey sessionId : String)
    (status : String) (matchedPubkey : String) (browserId fallbackBid : String)
    (chatSessionId : String) (freshSess : String) : NostrEvent :=
  let validSessionId := if sessionId == "" then freshSess else sessionId
  let tags :=
    [["status", status], ["session", validSessionId],
     ["expiry", toString (now + MATCH_EXPIRY)]]
    ++ (if matchedPubkey == "" then [] else [["p", matchedPubkey]])
    ++ [["browser_id", if browserId == "" then fallbackBid else browserId]]
    ++ (if chatSessionId != "" && status == "matched" then [["chat_session", chatSessionId]] else [])
  { id := evId, kind := OMESTR_KIND, created_at := now / 1000, tags := tags,
    content := "", pubkey := publicKey, sig := sig }

/-! ### Shared cross-tab state and `SimplePool.handleNostrEvent`
(logger.ts lines 719–792)

The shared instance holds `looking : Set<string>` (insertion-ordered, no
duplicates), `matched : Map<string, string>` (proposer pubkey ↦ target
pubkey), and localStorage records `omestr_browser_${pubkey}` (here
`browserIds`) and `${KEY_PREFIX}user_activity_${pubkey}` (here `activity`).
Persistence calls (`saveLookingUsers` …) write these same values through and
carry no further logic. -/

structure SharedState where
  looking : List String
  matched : List (String × String)
  browserIds : List (String × String)
  activity : List (String × Int)
deriving DecidableEq, Repr

/-- JS `Map.set` / `localStorage.setItem`: replace the value under an existing
key, otherwise append the binding. -/
def storeSet (l : List (String × α)) (k : String) (v : α) : List (String × α) :=
  if l.any (fun p => p.1 == k) then l.map (fun p => if p.1 == k then (k, v) else p)
  else l ++ [(k, v)]

/-- Translation of `SimplePool.handleNostrEvent`, returning the updated shared
state together with the list of events delivered to subscription callbacks
(`this.broadcastEvent(event)`). An expired event — `Date.now() - eventTime >
MATCH_EXPIRY` with `eventTime = event.created_at * 1000` — is dropped before
the broadcast and before any state change. -/
def handleNostrEvent (now : Int) (st : SharedState) (ev : NostrEvent) :
    SharedState × List NostrEvent :=
  if now - ev.created_at * 1000 > MATCH_EXPIRY then (st, [])
  else if ev.kind == OMESTR_KIND then
    let status := tagVal ev.tags "status"
    let browserInstanceId := tagVal ev.tags "browser_id"
    let st1 :=
      if browserInstanceId != "" then
        { st with browserIds := storeSet st.browserIds ev.pubkey browserInstanceId }
      else st
    let st2 :=
      if status == "looking" then
        let st' :=
          if st1.looking.contains ev.pubkey then st1
          else { st1 with looking := st1.looking ++ [ev.pubkey] }
        { st' with activity := storeSet st'.activity ev.pubkey now }
      else st1
    let st3 :=
      if status == "matched" then
        let targetPubkey := tagVal ev.tags "p"
        if targetPubkey != "" then
          if st2.matched.any (fun p => p.1 == ev.pubkey) then st2
          else
            { st2 with
              matched := st2.matched ++ [(ev.pubkey, targetPubkey)],
              looking := (st2.looking.filter (fun u => u != ev.pubkey)).filter
                (fun u => u != targetPubkey) }
        else st2
      else st2
    (st3, [ev])
  else (st, [ev])

/-- Number of pairing records in the matched registry in which `k` appears
(as proposer or as target). -/
def pairingsContaining (matched : List (String × String)) (k : String) : Nat :=
  (matched.filter (fun p => p.1 == k || p.2 == k)).length

/-- Number of pairing records proposed by `k`. -/
def pairingsProposedBy (matched : List (String × String)) (k : String) : Nat :=
  (matched.filter (fun p => p.1 == k)).length

/-! ### `SimplePool.publish` (logger.ts lines 795–913)

The method (1) stores the event locally (`saveEvent`), (2) delivers it to the
local subscription callbacks (`this.broadcastEvent`), (3) opens a WebSocket to
every relay in `DEFAULT_RELAYS` unconditionally ("force-send"), and only then
(4) enters the retry loop: `while (retryCount <= maxRetries && !publishSuccess)`
with `maxRetries = 3`, reading `this.connectedRelays.size` at each iteration;
a positive count makes the attempt succeed, a zero count waits, re-`connect`s
and retries. The attempt-indexed connected count is abstracted as
`conn : Nat → Nat` (re-connection effects are folded into later values). -/

/-- Steps of a publish call, in execution order. -/
inductive PubAction where
  | saveLocal (ev : NostrEvent)
  | deliverLocal (ev : NostrEvent)
  | forceSend (relay : String) (ev : NostrEvent)
deriving DecidableEq, Repr

/-- Retry bound of `SimplePool.publish` (`const maxRetries = 3`). -/
def publishMaxRetries : Nat := 3

/-- The retry loop of `SimplePool.publish`: at retry count `i`, succeed if any
relay is connected, otherwise retry; give up once `i > maxRetries`. `fuel`
decreases structurally and starts at `maxRetries + 1`, the number of loop
iterations possible from `i = 0`. -/
def publishLoop (conn : Nat → Nat) : Nat → Nat → Bool
  | 0, _ => false
  | fuel + 1, i => if 0 < conn i then true else publishLoop conn fuel (i + 1)

/-- Result of `SimplePool.publish`: the ordered action trace that precedes the
retry loop, and the final `publishSuccess` value. -/
def publish (conn : Nat → Nat) (ev : NostrEvent) : List PubAction × Bool :=
  ([PubAction.saveLocal ev, PubAction.deliverLocal ev]
     ++ DEFAULT_RELAYS.map (fun r => PubAction.forceSend r ev),
   publishLoop conn (publishMaxRetries + 1) 0)

/-! ### Matchmaking state machine (`useNostrMatchmaking`, revised variant,
useNostrMatchmaking.ts lines 886–1537)

Per-participant state mirrors the hook's React state and refs: `status`,
`partner`, `pendingMatchRef`, `isConnectingRef`, `lastMatchAttemptRef`. The
events handed to `publishMatchmakingEvent` are accumulated in `published`;
the `subscribeToChatWithPartner` call is recorded in `chatSub`. The
participant-constant closure values (`keypair.publicKey`, `sessionId`,
`browserInstanceId`) live in `Ctx`; the `keypair`/`poolRef` null guards are
always passed, since both are set before any handler can run. Fresh values
drawn from `generateRandomString` during one handler run are supplied in
`Fresh`. -/

/-- Connection status of the hook (`ConnectionStatus`). -/
inductive ConnStatus where
  | disconnected
  | looking
  | connecting
  | connected
deriving DecidableEq, Repr

/-- Partner information (`PartnerInfo`). -/
structure PartnerInfo where
  id : String
  chatSessionId : String
deriving DecidableEq, Repr

/-- Pending match record (`pendingMatchRef.current`). -/
structure PendingMatch where
  pubkey : String
  sessionId : String
  timestamp : Int
deriving DecidableEq, Repr

/-- Participant-constant values captured by the hook's closures. -/
structure Ctx where
  publicKey : String
  sessionId : String
  browserId : String
deriving DecidableEq, Repr

/-- Fresh random strings drawn during one handler run. -/
structure Fresh where
  evId : String
  sig : String
  sess : String
  cs : String
deriving DecidableEq, Repr

/-- Mutable participant state of the hook. -/
structure MMState where
  status : ConnStatus
  partner : Option PartnerInfo
  pending : Option PendingMatch
  isConnecting : Bool
  lastMatchAttempt : Int
  published : List NostrEvent
  chatSub : Option (String × String)
deriving DecidableEq, Repr

/-- Pubkey of the pending match, if any (`pendingMatchRef.current?.pubkey`). -/
def MMState.pendingPubkey (st : MMState) : Option String :=
  st.pending.map PendingMatch.pubkey

/-- Translation of `handleMatchConfirmation` (lines 1020–1046): unless already
`connected`, clear the connection timeout and pending proposal, adopt the
carried partner and chat session id (falling back to a fresh id when the
carried one is empty), move to `connected`, and subscribe to the chat. -/
def handleMatchConfirmation (fr : Fresh) (st : MMState)
    (confirmedPartnerPubkey chatSessionId : String) : MMState :=
  if st.status = ConnStatus.connected then st
  else
    { st with
      partner := some { id := confirmedPartnerPubkey,
                        chatSessionId := if chatSessionId == "" then fr.cs else chatSessionId },
      status := ConnStatus.connected,
      isConnecting := false,
      pending := none,
      chatSub := some (confirmedPartnerPubkey, chatSessionId) }

/-- Translation of the synchronous part of `handlePotentialMatch` (lines
1050–1107): guard on state, cooldown, and own pubkey, then move to
`connecting`, record the pending match with a freshly generated
`chatSessionId`, and publish a `matched` announcement naming the partner. -/
def handlePotentialMatch (ctx : Ctx) (now : Int) (fr : Fresh) (st : MMState)
    (potentialPartnerPubkey _partnerSessionId : String) : MMState :=
  if ¬(st.status = ConnStatus.looking ∨ st.status = ConnStatus.connecting) then st
  else if st.lastMatchAttempt > now - 5000 ∧
      st.pendingPubkey = some potentialPartnerPubkey then st
  else if potentialPartnerPubkey = ctx.publicKey then st
  else
    { st with
      status := ConnStatus.connecting,
      isConnecting := true,
      lastMatchAttempt := now,
      pending := some { pubkey := potentialPartnerPubkey, sessionId := fr.cs, timestamp := now },
      published := st.published ++
        [mkMatchmakingEvent fr.evId fr.sig now ctx.publicKey ctx.sessionId "matched"
          potentialPartnerPubkey ctx.browserId ctx.browserId fr.cs fr.sess] }

/-- Confirmation timeout of `handlePotentialMatch` in milliseconds
(`setTimeout(..., 10000)`, line 1117). -/
def matchConfirmationTimeoutMs : Int := 10000

/-- Translation of the timeout continuation of `handlePotentialMatch` (lines
1140–1164), run when the confirmation promise resolved `false` (no `matched`
confirmation arrived within the 10-second timeout): if still `connecting`,
clear the pending proposal, return to `looking`, and re-publish a `looking`
announcement. -/
def handlePotentialMatchTimeout (ctx : Ctx) (now : Int) (fr : Fresh)
    (st : MMState) : MMState :=
  if st.status = ConnStatus.connecting then
    { st with
      pending := none,
      isConnecting := false,
      status := ConnStatus.looking,
      published := st.published ++
        [mkMatchmakingEvent fr.evId fr.sig now ctx.publicKey ctx.sessionId "looking"
          "" ctx.browserId ctx.browserId "" fr.sess] }
  else st

/-- Translation of `handleLookingMatch` (lines 1169–1194): require `looking`
state, skip own pubkey, enforce the 5-second cooldown, then stamp the attempt
time and delegate to `handlePotentialMatch`. -/
def handleLookingMatch (ctx : Ctx) (now : Int) (fr : Fresh) (st : MMState)
    (partnerPubkey chatSessionId : String) : MMState :=
  if st.status ≠ ConnStatus.looking then st
  else if partnerPubkey = ctx.publicKey then st
  else if now - st.lastMatchAttempt < 5000 then st
  else handlePotentialMatch ctx now fr { st with lastMatchAttempt := now }
    partnerPubkey chatSessionId

/-- Translation of the `subscribeToMatchmakingEvents` callback (lines
1213–1281): skip own events, extract status / session / chat-session / `p`
tags (generating a fresh session id when the carried one is empty), then
dispatch to `handleLookingMatch` for peer `looking` announcements while
`looking`, and to `handleMatchConfirmation` for `matched` announcements
naming this participant. -/
def processMatchmakingEvent (ctx : Ctx) (now : Int) (fr : Fresh) (st : MMState)
    (ev : NostrEvent) : MMState :=
  if ev.pubkey = ctx.publicKey then st
  else
    let eventStatus := tagVal ev.tags "status"
    let eventSessionId0 := tagVal ev.tags "session"
    let eventSessionId := if eventSessionId0 == "" then fr.sess else eventSessionId0
    let chatSessionId := tagVal ev.tags "chat_session"
    let partnerTag := hasPTag ev.tags ctx.publicKey
    if eventStatus == "looking" ∧ st.status = ConnStatus.looking then
      handleLookingMatch ctx now fr st ev.pubkey eventSessionId
    else if eventStatus == "matched" ∧ partnerTag then
      handleMatchConfirmation fr st ev.pubkey
        (if chatSessionId == "" then eventSessionId else chatSessionId)
    else st

/-! ### Chat message handling

`subscribeToChatWithPartner`'s event callback (useNostrMatchmaking.ts lines
995–1013) appends one `ChatMessage` to the displayed list per delivered
event. The server-polling variant (`useServerMatchmaking`, lines 2019–2063)
instead merges polled batches through an id/content duplicate filter. -/

/-- Sender discriminator of a displayed chat message. -/
inductive Sender where
  | me
  | partner
deriving DecidableEq, Repr

/-- Displayed chat message (`ChatMessage`). -/
structure ChatMessage where
  id : String
  content : String
  sender : Sender
  timestamp : Int
deriving DecidableEq, Repr

/-- Translation of the chat subscription callback (lines 995–1013): build a
`ChatMessage` from the event and append it to the displayed list
(`setMessages(prevMessages => [...prevMessages, newMessage])`). -/
def chatOnEvent (myPubkey : String) (msgs : List ChatMessage) (ev : NostrEvent) :
    List ChatMessage :=
  msgs ++ [{ id := ev.id, content := ev.content,
             sender := if ev.pubkey = myPubkey then Sender.me else Sender.partner,
             timestamp := ev.created_at * 1000 }]

/-- Number of displayed messages carrying the given id. -/
def countMessagesWithId (msgs : List ChatMessage) (msgId : String) : Nat :=
  (msgs.filter (fun m => m.id == msgId)).length

/-- Translation of the server-polling variant's message merge (lines
2019–2063): drop an incoming message whose id is already displayed, and drop
an own ("me") message whose content matches a recent own message (timestamps
within 5000 ms); append the survivors. -/
def mergeNewMessages (prevMessages newChatMessages : List ChatMessage) :
    List ChatMessage :=
  prevMessages ++ newChatMessages.filter (fun newMsg =>
    if prevMessages.any (fun existingMsg => existingMsg.id == newMsg.id) then false
    else if newMsg.sender = Sender.me ∧
        prevMessages.any (fun existingMsg =>
          existingMsg.sender == Sender.me && existingMsg.content == newMsg.content &&
          (existingMsg.timestamp - newMsg.timestamp).natAbs < 5000) then false
    else true)

/-! ### HTTP matchmaking endpoint (`route.ts`)

The in-memory store is the `lookingUsers` array; one `POST` is a function of
the store, the parsed JSON body, the current time, and the freshly generated
shared chat session id. Field presence matters for the validation check
(`if (!id || !pubkey || !sessionId || !browserId)`), so body fields are
`Option String`; JS falsiness of a string field is `undefined` or `""`. The
response status is `400` from validation and `200` otherwise (the `500` catch
covers JSON-parse and runtime exceptions, outside this model). -/

/-- Store entry (`LookingUser`). -/
structure LookingUser where
  id : String
  pubkey : String
  sessionId : String
  browserId : String
  status : String
  timestamp : Int
  matchedWith : Option String
  chatSessionId : Option String
deriving DecidableEq, Repr

/-- Parsed JSON body of a `POST` request. -/
structure PostBody where
  id : Option String
  pubkey : Option String
  sessionId : Option String
  browserId : Option String
  status : Option String
  chatSessionId : Option String
deriving DecidableEq, Repr

/-- JS falsiness of a string-valued JSON field: absent or empty. -/
def jsStrFalsy : Option String → Bool
  | none => true
  | some s => s == ""

/-- Reading a possibly-absent field where the source uses it as a string. -/
def orEmpty (o : Option String) : String := o.getD ""

/-- Store expiry window (`EXPIRY_TIME = 5 * 60 * 1000`). -/
def EXPIRY_TIME : Int := 5 * 60 * 1000

/-- Translation of `cleanupOldUsers`: keep users younger than five minutes. -/
def cleanupOldUsers (now : Int) (store : List LookingUser) : List LookingUser :=
  store.filter (fun u => now - u.timestamp < EXPIRY_TIME)

/-- Match search of the `POST` handler (route.ts lines 86–90): the first user
with a different id, a different browser id, and status `looking`. -/
def findMatchRoute (store : List LookingUser) (id browserId : String) :
    Option LookingUser :=
  store.find? (fun u => u.id != id && u.browserId != browserId && u.status == "looking")

/-- Update the element at an index, if present (`lookingUsers[i] = ...`). -/
def listModify (l : List α) (i : Nat) (f : α → α) : List α :=
  match l.get? i with
  | some a => l.set i (f a)
  | none => l

/-- Translation of the `POST` handler of `route.ts` (lines 39–135): validate
the four required fields before touching the store; then clean up expired
users, upsert the requester (matching an existing entry by id *or* browser
id, spreading the new data over it — which preserves `matchedWith` and
overwrites `chatSessionId`), and, when the raw request status is `looking`,
pair the requester with the first eligible candidate, stamping both entries
`matched` with the shared chat session id. Returns the HTTP status code and
the resulting store. -/
def postRoute (now : Int) (sharedChatSessionId : String) (store : List LookingUser)
    (body : PostBody) : Nat × List LookingUser :=
  if jsStrFalsy body.id || jsStrFalsy body.pubkey || jsStrFalsy body.sessionId ||
      jsStrFalsy body.browserId then
    (400, store)
  else
    let id := orEmpty body.id
    let browserId := orEmpty body.browserId
    let store1 := cleanupOldUsers now store
    let existingUserIndex := store1.findIdx? (fun u => u.id == id || u.browserId == browserId)
    let userData : LookingUser :=
      { id := id, pubkey := orEmpty body.pubkey, sessionId := orEmpty body.sessionId,
        browserId := browserId,
        status := if jsStrFalsy body.status then "looking" else orEmpty body.status,
        timestamp := now, matchedWith := none, chatSessionId := body.chatSessionId }
    let store2 :=
      match existingUserIndex with
      | some i => listModify store1 i (fun old => { userData with matchedWith := old.matchedWith })
      | none => store1 ++ [userData]
    let store3 :=
      if body.status = some "looking" then
        match findMatchRoute store2 id browserId with
        | some m =>
          let s1 :=
            match store2.findIdx? (fun u => u.id == id) with
            | some ci => listModify store2 ci (fun u =>
                { u with status := "matched", matchedWith := some m.id,
                         chatSessionId := some sharedChatSessionId })
            | none => store2
          match s1.findIdx? (fun u => u.id == m.id) with
          | some mi => listModify s1 mi (fun u =>
              { u with status := "matched", matchedWith := some id,
                       chatSessionId := some sharedChatSessionId })
          | none => s1
        | none => store2
      else store2
    (200, store3)

/-! ### Tie-break scenario for the mutual-proposal race (spec P3)

Two participants, both `looking`, each observe the other's `looking`
announcement (proposing with their own freshly generated chat session id) and
then each receive the other's `matched` proposal. States and events are built
purely from the definitions above. -/

/-- Initial hook state right after `startLooking` reset the session
(lines 1307–1313): `looking`, no partner, no pending match. -/
def startLookingState : MMState :=
  { status := ConnStatus.looking, partner := none, pending := none,
    isConnecting := false, lastMatchAttempt := 0, published := [], chatSub := none }

/-- One side of the mutual-proposal run: from `looking`, process the peer's
`looking` announcement at `t1` (publishing an own `matched` proposal carrying
`fr.cs`), then process the peer's crossing `matched` proposal at `t2`. -/
def mutualProposalRun (ctx : Ctx) (fr fr2 : Fresh) (t1 t2 : Int)
    (peerLooking peerMatched : NostrEvent) : MMState :=
  processMatchmakingEvent ctx t2 fr2
    (processMatchmakingEvent ctx t1 fr startLookingState peerLooking) peerMatched

/-! ### Concrete instances used by counterexamples and witnesses -/

/-- Participant A of the concrete tie-break run. -/
def tieCtxA : Ctx := { publicKey := "alice-pk", sessionId := "sess-alice", browserId := "bid-alice" }

/-- Participant B of the concrete tie-break run. -/
def tieCtxB : Ctx := { publicKey := "bob-pk", sessionId := "sess-bob", browserId := "bid-bob" }

/-- Fresh randoms drawn by A while proposing; A's proposed chat session id is
`cs-alice`. -/
def tieFrA : Fresh := { evId := "eid-a", sig := "sig-a", sess := "fs-a", cs := "cs-alice" }

/-- Fresh randoms drawn by B while proposing; B's proposed chat session id is
`cs-bob`. -/
def tieFrB : Fresh := { evId := "eid-b", sig := "sig-b", sess := "fs-b", cs := "cs-bob" }

/-- Fresh randoms drawn by A while confirming. -/
def tieFrA2 : Fresh := { evId := "eid-a2", sig := "sig-a2", sess := "fs-a2", cs := "cs-a2" }

/-- Fresh randoms drawn by B while confirming. -/
def tieFrB2 : Fresh := { evId := "eid-b2", sig := "sig-b2", sess := "fs-b2", cs := "cs-b2" }

/-- A's `looking` announcement. -/
def tieLookA : NostrEvent :=
  mkMatchmakingEvent "l-a" "ls-a" 10000 "alice-pk" "sess-alice" "looking" "" "bid-alice" "bid-alice" "" "x"

/-- B's `looking` announcement. -/
def tieLookB : NostrEvent :=
  mkMatchmakingEvent "l-b" "ls-b" 10000 "bob-pk" "sess-bob" "looking" "" "bid-bob" "bid-bob" "" "x"

/-- The `matched` proposal A publishes upon seeing B `looking` (this equals
the single event in A's published list after the first step). -/
def tieMatchedA : NostrEvent :=
  mkMatchmakingEvent "eid-a" "sig-a" 10000 "alice-pk" "sess-alice" "matched" "bob-pk"
    "bid-alice" "bid-alice" "cs-alice" "fs-a"

/-- The `matched` proposal B publishes upon seeing A `looking`. -/
def tieMatchedB : NostrEvent :=
  mkMatchmakingEvent "eid-b" "sig-b" 10000 "bob-pk" "sess-bob" "matched" "alice-pk"
    "bid-bob" "bid-bob" "cs-bob" "fs-b"

/-- A's final state in the concrete tie-break run. -/
def tieStateA : MMState := mutualProposalRun tieCtxA tieFrA tieFrA2 10000 11000 tieLookB tieMatchedB

/-- B's final state in the concrete tie-break run. -/
def tieStateB : MMState := mutualProposalRun tieCtxB tieFrB tieFrB2 10000 11000 tieLookA tieMatchedA

/-- A chat message event as delivered to the chat subscription callback. -/
def dupChatEvent : NostrEvent :=
  { id := "m1", kind := 4, created_at := 100, tags := [["p", "alice-pk"], ["session", "cs"]],
    content := "hello", pubkey := "bob-pk", sig := "sg" }

/-- Empty shared instance. -/
def emptyShared : SharedState := { looking := [], matched := [], browserIds := [], activity := [] }

/-- A `matched` announcement from pubkey `A` targeting pubkey `B`. -/
def matchedFromA : NostrEvent :=
  { id := "e1", kind := 30078, created_at := 0, tags := [["status", "matched"], ["p", "B"]],
    content := "", pubkey := "A", sig := "s1" }

/-- A `matched` announcement from pubkey `C` also targeting pubkey `B`. -/
def matchedFromC : NostrEvent :=
  { id := "e2", kind := 30078, created_at := 0, tags := [["status", "matched"], ["p", "B"]],
    content := "", pubkey := "C", sig := "s2" }

/-- A looking user whose browser id (`b1`) will collide with a requester's. -/
def candidateSameBrowser : LookingUser :=
  { id := "u2", pubkey := "pk2", sessionId := "s2", browserId := "b1", status := "looking",
    timestamp := 0, matchedWith := none, chatSessionId := none }

/-- A request body with every required field present but `id` empty. -/
def emptyIdBody : PostBody :=
  { id := some "", pubkey := some "pk1", sessionId := some "s1", browserId := some "b9",
    status := some "looking", chatSessionId := none }

/-- A request body missing `pubkey` entirely. -/
def missingPubkeyBody : PostBody :=
  { id := some "u1", pubkey := none, sessionId := some "s1", browserId := some "b9",
    status := some "looking", chatSessionId := none }

/-- A hook state sitting in `connecting` with a pending proposal. -/
def connectingState : MMState :=
  { status := ConnStatus.connecting, partner := none,
    pending := some { pubkey := "bob-pk", sessionId := "cs-w", timestamp := 10000 },
    isConnecting := true, lastMatchAttempt := 10000, published := [], chatSub := none }

/-! ## Theorems -/

/-- Unfolding of one iteration of the `publish` retry loop. -/
theorem publishLoop_succ (conn : Nat → Nat) (fuel i : Nat) :
    publishLoop conn (fuel + 1) i =
      if 0 < conn i then true else publishLoop conn fuel (i + 1) := rfl

/-- The retry loop succeeds exactly when some attempt within the fuel budget
sees a positive connected-relay count. -/
theorem publishLoop_eq_true_iff (conn : Nat → Nat) (fuel : Nat) :
    ∀ i, (publishLoop conn fuel i = true ↔ ∃ j, j < fuel ∧ 0 < conn (i + j)) := by
  induction fuel with
  | zero => intro i; simp [publishLoop]
  | succ n ih =>
    intro i
    rw [publishLoop_succ]
    by_cases h : 0 < conn i
    · simp only [h, if_true, true_iff]
      exact ⟨0, Nat.succ_pos n, by simpa using h⟩
    · simp only [h, if_false, ih (i + 1)]
      constructor
      · rintro ⟨j, hj, hc⟩
        exact ⟨j + 1, by omega, by rwa [show i + (j + 1) = i + 1 + j by omega]⟩
      · rintro ⟨j, hj, hc⟩
        cases j with
        | zero => exact absurd (by simpa using hc) h
        | succ k =>
          exact ⟨k, by omega, by rwa [show i + 1 + k = i + (k + 1) by omega]⟩

/-- Claim C2: a participant's matchmaking pipeline never processes its own
announcements into a match: the subscription callback drops any event whose
`pubkey` equals the participant's own public key, and both
`handleLookingMatch` and `handlePotentialMatch` leave the state unchanged
when the candidate pubkey equals the participant's own key; hence no
transition into `connecting`/`connected` with oneself as partner can arise
from such events. -/
theorem claim2_no_self_match (ctx : Ctx) (now : Int) (fr : Fresh) (st : MMState)
    (evId : String) (kind : Nat) (ca : Int) (tags : List (List String))
    (content sig cs ps : String) :
    processMatchmakingEvent ctx now fr st
        { id := evId, kind := kind, created_at := ca, tags := tags, content := content,
          pubkey := ctx.publicKey, sig := sig } = st ∧
    handleLookingMatch ctx now fr st ctx.publicKey cs = st ∧
    handlePotentialMatch ctx now fr st ctx.publicKey ps = st := by
  refine ⟨?_, ?_, ?_⟩
  · simp [processMatchmakingEvent]
  · simp [handleLookingMatch, handlePotentialMatch]
  · simp [handlePotentialMatch]

/-- Claim C7: when no `matched` confirmation arrives within the 10-second
confirmation timeout (`matchConfirmationTimeoutMs = 10000`) and the
participant is still `connecting`, the timeout branch of
`handlePotentialMatch` clears the pending proposal, resets the connecting
flag, returns to `looking`, and appends a fresh `looking` announcement to the
published events. -/
theorem claim7_timeout_recovery (ctx : Ctx) (now : Int) (fr : Fresh) (st : MMState)
    (h : st.status = ConnStatus.connecting) :
    (handlePotentialMatchTimeout ctx now fr st).status = ConnStatus.looking ∧
    (handlePotentialMatchTimeout ctx now fr st).pending = none ∧
    (handlePotentialMatchTimeout ctx now fr st).isConnecting = false ∧
    (handlePotentialMatchTimeout ctx now fr st).published = st.published ++
      [mkMatchmakingEvent fr.evId fr.sig now ctx.publicKey ctx.sessionId "looking"
        "" ctx.browserId ctx.browserId "" fr.sess] ∧
    matchConfirmationTimeoutMs = 10000 := by
  simp [handlePotentialMatchTimeout, h, matchConfirmationTimeoutMs]

/-- Witness for C7 at the concrete `connecting` state. -/
theorem claim7_timeout_recovery_witness :
    connectingState.status = ConnStatus.connecting ∧
    (handlePotentialMatchTimeout tieCtxA 20000 tieFrA2 connectingState).status =
      ConnStatus.looking := by
  exact ⟨rfl, (claim7_timeout_recovery tieCtxA 20000 tieFrA2 connectingState rfl).1⟩

/-- Claim C6: `SimplePool.publish` records the event locally and delivers it
to local subscription callbacks before any network step; it force-sends to
every relay of the configured `DEFAULT_RELAYS` list independently of the
connected set (the trace is the same for every connectivity environment); the
retry bound is 3; and the call returns `true` exactly when one of the four
attempts (initial plus three retries) observes a positive connected-relay
count — so `false` is returned only after exhausting the retries with no
transmission. -/
theorem claim6_publish_contract (conn : Nat → Nat) (ev : NostrEvent) :
    (publish conn ev).1 = [PubAction.saveLocal ev, PubAction.deliverLocal ev] ++
      DEFAULT_RELAYS.map (fun r => PubAction.forceSend r ev) ∧
    (DEFAULT_RELAYS.map (fun r => PubAction.forceSend r ev)).Sublist (publish conn ev).1 ∧
    (∀ conn₂ : Nat → Nat, (publish conn ev).1 = (publish conn₂ ev).1) ∧
    publishMaxRetries = 3 ∧
    ((publish conn ev).2 = true ↔ ∃ i, i ≤ publishMaxRetries ∧ 0 < conn i) := by
  refine ⟨rfl, ?_, fun conn₂ => rfl, rfl, ?_⟩
  · exact (List.sublist_append_right _ _)
  · simp only [publish]
    rw [publishLoop_eq_true_iff conn (publishMaxRetries + 1) 0]
    constructor
    · rintro ⟨j, hj, hc⟩
      exact ⟨j, by simp [publishMaxRetries] at hj ⊢; omega, by simpa using hc⟩
    · rintro ⟨i, hi, hc⟩
      exact ⟨i, by simp [publishMaxRetries] at hi ⊢; omega, by simpa using hc⟩

/-- Claim C8: `SimplePool.handleNostrEvent` drops any event whose age exceeds
the two-minute `MATCH_EXPIRY` window before broadcasting it or touching any
state, and every announcement built by `publishMatchmakingEvent` whose
`expiry` timestamp (`publish time + MATCH_EXPIRY`) has passed satisfies that
age bound, hence is dropped with no state transition and no delivery. -/
theorem claim8_expired_events_dropped (now : Int) (st : SharedState) (ev : NostrEvent)
    (h : now - ev.created_at * 1000 > MATCH_EXPIRY) :
    handleNostrEvent now st ev = (st, []) ∧
    ∀ (evId sig : String) (t : Int) (pk sess status mpk bid fbid cs fs : String),
      now > t + MATCH_EXPIRY →
      handleNostrEvent now st (mkMatchmakingEvent evId sig t pk sess status mpk bid fbid cs fs) =
        (st, []) := by
  constructor
  · unfold handleNostrEvent
    rw [if_pos h]
  · intro evId sig t pk sess status mpk bid fbid cs fs ht
    have hmod : 0 ≤ t % 1000 := Int.emod_nonneg t (by norm_num)
    have hdm : 1000 * (t / 1000) + t % 1000 = t := Int.ediv_add_emod t 1000
    have hage : now - (mkMatchmakingEvent evId sig t pk sess status mpk bid fbid cs fs).created_at
        * 1000 > MATCH_EXPIRY := by
      have hca : (mkMatchmakingEvent evId sig t pk sess status mpk bid fbid cs fs).created_at
          = t / 1000 := rfl
      rw [hca]
      unfold MATCH_EXPIRY at ht ⊢
      omega
    unfold handleNostrEvent
    rw [if_pos hage]

/-- Witness for C8: a two-minute-and-one-second-old event is dropped. -/
theorem claim8_expired_events_dropped_witness :
    ((200001 : Int) - matchedFromA.created_at * 1000 > MATCH_EXPIRY) ∧
    handleNostrEvent 200001 emptyShared matchedFromA = (emptyShared, []) ∧
    handleNostrEvent 200001 emptyShared
      (mkMatchmakingEvent "e9" "s9" 0 "A" "sess" "looking" "" "b" "b" "" "f") =
      (emptyShared, []) := by
  have h : (200001 : Int) - matchedFromA.created_at * 1000 > MATCH_EXPIRY := by decide
  have hc := claim8_expired_events_dropped 200001 emptyShared matchedFromA h
  exact ⟨h, hc.1, hc.2 "e9" "s9" 0 "A" "sess" "looking" "" "b" "b" "" "f" (by decide)⟩

/-- Counterexample to claim C5: the Nostr chat subscription callback performs
no id-based deduplication, so delivering the same chat message event (id
`m1`) twice leaves two displayed messages with that id, not exactly one. -/
theorem claim5_counterexample :
    countMessagesWithId
      (chatOnEvent "alice-pk" (chatOnEvent "alice-pk" [] dupChatEvent) dupChatEvent) "m1" = 2 ∧
    countMessagesWithId
      (chatOnEvent "alice-pk" (chatOnEvent "alice-pk" [] dupChatEvent) dupChatEvent) "m1" ≠ 1 := by
  decide

/-- Claim C5 as amended: exact-id deduplication of redundant deliveries holds
in the server-polling variant's message merge, which is idempotent — merging
the same message a second time leaves the displayed list unchanged, and a
first delivery to an empty list displays it exactly once — while the Nostr
chat subscription callback (the code the claim cites) appends every delivery
unconditionally. -/
theorem claim5_merge_idempotent (prev : List ChatMessage) (m : ChatMessage) :
    mergeNewMessages (mergeNewMessages prev [m]) [m] = mergeNewMessages prev [m] ∧
    mergeNewMessages [] [m] = [m] := by
  have merge_single : ∀ (p : List ChatMessage),
      mergeNewMessages p [m] =
        if (p.any fun e => e.id == m.id) = true then p
        else if m.sender = Sender.me ∧ (p.any fun e =>
            e.sender == Sender.me && e.content == m.content &&
            (e.timestamp - m.timestamp).natAbs < 5000) = true then p
        else p ++ [m] := by
    intro p
    unfold mergeNewMessages
    simp only [List.filter_cons, List.filter_nil]
    split_ifs <;> simp_all
  constructor
  · by_cases h1 : (prev.any fun e => e.id == m.id) = true
    · rw [merge_single prev, if_pos h1, merge_single prev, if_pos h1]
    · by_cases h2 : m.sender = Sender.me ∧ (prev.any fun e =>
          e.sender == Sender.me && e.content == m.content &&
          (e.timestamp - m.timestamp).natAbs < 5000) = true
      · rw [merge_single prev, if_neg h1, if_pos h2, merge_single prev, if_neg h1, if_pos h2]
      · rw [merge_single prev, if_neg h1, if_neg h2, merge_single (prev ++ [m]), if_pos]
        rw [List.any_append]
        simp
  · simp [mergeNewMessages]

/-- Counterexample to claim C3: the HTTP matchmaking endpoint's match search
rejects a candidate purely because the candidate's browser id equals the
requester's: the stored user has a different id, a different pubkey, and
status `looking`, yet no match is found when the requester shares browser id
`b1`, while the identical request from browser `b9` matches. -/
theorem claim3_counterexample :
    candidateSameBrowser.id ≠ "u1" ∧ candidateSameBrowser.pubkey ≠ "pk1" ∧
    candidateSameBrowser.status = "looking" ∧ candidateSameBrowser.browserId = "b1" ∧
    findMatchRoute [candidateSameBrowser] "u1" "b1" = none ∧
    findMatchRoute [candidateSameBrowser] "u1" "b9" = some candidateSameBrowser := by
  decide

/-- Claim C3 as amended: in the revised Nostr hook, public-key equality is the
only hard exclusion — `handleLookingMatch` proposes to any distinct-key
candidate once the cooldown has passed, with no browser-id input at all — but
the HTTP matchmaking endpoint additionally hard-excludes every candidate
whose browser id equals the requester's, so browser-heuristic equality does
block otherwise-valid matches there. -/
theorem claim3_exclusion_rules (store : List LookingUser) (id bid : String)
    (u : LookingUser) (hfind : findMatchRoute store id bid = some u) :
    (u.id ≠ id ∧ u.browserId ≠ bid ∧ u.status = "looking") ∧
    ∀ (ctx : Ctx) (now : Int) (fr : Fresh) (st : MMState) (pk cs : String),
      pk ≠ ctx.publicKey → st.status = ConnStatus.looking →
      ¬(now - st.lastMatchAttempt < 5000) → st.pending = none →
      (handleLookingMatch ctx now fr st pk cs).status = ConnStatus.connecting ∧
      (handleLookingMatch ctx now fr st pk cs).pendingPubkey = some pk := by
  constructor
  · have hp := List.find?_some hfind
    simp only [Bool.and_eq_true, bne_iff_ne, ne_eq, beq_iff_eq] at hp
    exact ⟨hp.1.1, hp.1.2, hp.2⟩
  · intro ctx now fr st pk cs hpk hst hcool hpend
    simp [handleLookingMatch, handlePotentialMatch, MMState.pendingPubkey, hpk, hst, hcool, hpend]

/-- Witness for the amended C3 at the concrete store and a concrete hook
state. -/
theorem claim3_exclusion_rules_witness :
    (candidateSameBrowser.id ≠ "u1" ∧ candidateSameBrowser.browserId ≠ "b9" ∧
      candidateSameBrowser.status = "looking") ∧
    (handleLookingMatch tieCtxA 10000 tieFrA startLookingState "bob-pk" "s").status =
      ConnStatus.connecting := by
  have h := claim3_exclusion_rules [candidateSameBrowser] "u1" "b9" candidateSameBrowser
    (by decide)
  exact ⟨h.1,
    (h.2 tieCtxA 10000 tieFrA startLookingState "bob-pk" "s" (by decide) rfl (by decide) rfl).1⟩

/-- Counterexample to claim C10: a request body in which all four required
fields are present but `id` is the empty string is rejected with HTTP 400, so
"400 if and only if a required field is absent" fails in the only-if
direction. -/
theorem claim10_counterexample :
    (postRoute 0 "cs" [candidateSameBrowser] emptyIdBody).1 = 400 ∧
    emptyIdBody.id ≠ none ∧ emptyIdBody.pubkey ≠ none ∧
    emptyIdBody.sessionId ≠ none ∧ emptyIdBody.browserId ≠ none ∧
    (postRoute 0 "cs" [candidateSameBrowser] emptyIdBody).2 = [candidateSameBrowser] := by
  decide

/-- Claim C10 as amended: the `POST` handler responds 400 exactly when one of
`id`, `pubkey`, `sessionId`, `browserId` is absent **or empty** (JS-falsy),
and in that case the in-memory store is left completely unchanged, the
validation running before any cleanup or mutation. -/
theorem claim10_validation (now : Int) (fresh : String) (store : List LookingUser)
    (body : PostBody) :
    ((postRoute now fresh store body).1 = 400 ↔
      (jsStrFalsy body.id || jsStrFalsy body.pubkey || jsStrFalsy body.sessionId ||
        jsStrFalsy body.browserId) = true) ∧
    ((jsStrFalsy body.id || jsStrFalsy body.pubkey || jsStrFalsy body.sessionId ||
        jsStrFalsy body.browserId) = true →
      postRoute now fresh store body = (400, store)) := by
  by_cases h : (jsStrFalsy body.id || jsStrFalsy body.pubkey || jsStrFalsy body.sessionId ||
      jsStrFalsy body.browserId) = true
  · exact ⟨by simp [postRoute, h], fun _ => by simp [postRoute, h]⟩
  · refine ⟨?_, fun hcontra => absurd hcontra h⟩
    simp [postRoute, h]

/-- Witness for the amended C10: a body missing `pubkey` is rejected with 400
and the store is untouched. -/
theorem claim10_validation_witness :
    postRoute 0 "cs" [candidateSameBrowser] missingPubkeyBody = (400, [candidateSameBrowser]) := by
  exact (claim10_validation 0 "cs" [candidateSameBrowser] missingPubkeyBody).2 (by decide)

/-- A matched registry whose proposer keys are distinct filters at most one
entry proposed by any key. -/
theorem pairingsProposedBy_le_one (m : List (String × String))
    (h : (m.map Prod.fst).Nodup) (k : String) : pairingsProposedBy m k ≤ 1 := by
  induction m with
  | nil => simp [pairingsProposedBy]
  | cons a l ih =>
    simp only [List.map_cons, List.nodup_cons] at h
    obtain ⟨hnot, hl⟩ := h
    by_cases hk : (a.1 == k) = true
    · have hk2 : a.1 = k := by simpa using hk
      have hempty : l.filter (fun p => p.1 == k) = [] := by
        rw [List.filter_eq_nil_iff]
        intro p hp hpk
        exact hnot (List.mem_map.mpr ⟨p, hp, by simpa [hk2] using hpk⟩)
      simp [pairingsProposedBy, List.filter_cons, hk, hempty]
    · simpa [pairingsProposedBy, List.filter_cons, hk] using ih hl

/-- The matched registry after `handleNostrEvent` is either unchanged, or
extended by one entry proposed by the event's pubkey — and extension happens
only when that pubkey proposed no earlier pairing. -/
theorem handleNostrEvent_matched_shape (now : Int) (st : SharedState) (ev : NostrEvent) :
    (handleNostrEvent now st ev).1.matched = st.matched ∨
    ((st.matched.any fun p => p.1 == ev.pubkey) = false ∧
      (handleNostrEvent now st ev).1.matched =
        st.matched ++ [(ev.pubkey, tagVal ev.tags "p")]) := by
  unfold handleNostrEvent
  by_cases hexp : now - ev.created_at * 1000 > MATCH_EXPIRY
  · rw [if_pos hexp]
    exact Or.inl rfl
  · rw [if_neg hexp]
    by_cases hkind : (ev.kind == OMESTR_KIND) = true
    · rw [if_pos hkind]
      dsimp only
      simp only [apply_ite SharedState.matched, ite_self]
      split_ifs with h1 h2 h3
      · exact Or.inl rfl
      · exact Or.inr ⟨by rwa [Bool.not_eq_true] at h3, rfl⟩
      · exact Or.inl rfl
      · exact Or.inl rfl
    · rw [if_neg hkind]
      exact Or.inl rfl

/-- Claim C4 as amended: `handleNostrEvent` preserves distinctness of the
proposer keys of the matched registry — a pubkey that already proposed a
pairing never acquires a second entry, so every key appears as *proposer* in
at most one active pairing — but no such bound is enforced on the *target*
side of the registry, and the full at-most-one-pairing-per-key invariant
fails there. -/
theorem claim4_proposer_at_most_one (now : Int) (st : SharedState) (ev : NostrEvent)
    (h : (st.matched.map Prod.fst).Nodup) :
    (((handleNostrEvent now st ev).1.matched).map Prod.fst).Nodup ∧
    ∀ k, pairingsProposedBy (handleNostrEvent now st ev).1.matched k ≤ 1 := by
  have hnodup : (((handleNostrEvent now st ev).1.matched).map Prod.fst).Nodup := by
    rcases handleNostrEvent_matched_shape now st ev with heq | ⟨hany, heq⟩
    · rwa [heq]
    · rw [heq, List.map_append, List.map_cons, List.map_nil]
      rw [List.nodup_append]
      refine ⟨h, List.nodup_singleton _, ?_⟩
      intro a ha hb
      simp only [List.mem_singleton] at hb
      subst hb
      rw [List.any_eq_false] at hany
      obtain ⟨pr, hpr, hfst⟩ := List.mem_map.mp ha
      exact hany pr hpr (by simp [hfst])
  exact ⟨hnodup, fun k => pairingsProposedBy_le_one _ hnodup k⟩

/-- Counterexample to claim C4: two fresh `matched` announcements, one from
`A` targeting `B` and one from `C` also targeting `B`, are both accepted by
`handleNostrEvent`, after which public key `B` appears in two active
pairings simultaneously. -/
theorem claim4_counterexample :
    (handleNostrEvent 0 (handleNostrEvent 0 emptyShared matchedFromA).1 matchedFromC).1.matched =
      [("A", "B"), ("C", "B")] ∧
    pairingsContaining
      (handleNostrEvent 0 (handleNostrEvent 0 emptyShared matchedFromA).1 matchedFromC).1.matched
      "B" = 2 ∧
    ¬ pairingsContaining
      (handleNostrEvent 0 (handleNostrEvent 0 emptyShared matchedFromA).1 matchedFromC).1.matched
      "B" ≤ 1 := by
  decide

/-- Witness for the amended C4 at the empty registry and the concrete
`matched` announcement. -/
theorem claim4_proposer_at_most_one_witness :
    (((handleNostrEvent 0 emptyShared matchedFromA).1.matched).map Prod.fst).Nodup ∧
    pairingsProposedBy (handleNostrEvent 0 emptyShared matchedFromA).1.matched "A" ≤ 1 := by
  have h := claim4_proposer_at_most_one 0 emptyShared matchedFromA (by decide)
  exact ⟨h.1, h.2 "A"⟩

/-- Character data of the browser-branch output: one two-character hex block
per random byte. -/
theorem generateRandomStringBrowser_data (bytes : List Nat) :
    (generateRandomStringBrowser bytes).data =
      ((bytes.map byteToHexPadded).map String.data).flatten := by
  simp [generateRandomStringBrowser]

/-- A value below 16 renders as one of the sixteen lowercase hex digits. -/
theorem toHexDigit_mem_hexDigits (n : Nat) (h : n < 16) : toHexDigit n ∈ hexDigits := by
  interval_cases n <;> decide

/-- Total character count of the hex blocks: two per byte. -/
theorem hexBlocks_length_sum (l : List Nat) :
    (((l.map byteToHexPadded).map String.data).map List.length).sum = 2 * l.length := by
  induction l with
  | nil => simp
  | cons b t ih =>
    simp only [List.map_cons, List.sum_cons, List.length_cons, ih]
    have h2 : (byteToHexPadded b).data.length = 2 := rfl
    omega

/-- Claim C9: with `L` random bytes delivered by `crypto.getRandomValues`, the
browser branch of `generateRandomString(L)` yields exactly `2 * L` lowercase
hexadecimal characters, while the SSR fallback yields the fixed string of
exactly `L` characters `'0'`; for positive `L` the two lengths disagree, and
the SSR output is a constant determined by `L` alone. -/
theorem claim9_random_string_shapes (bytes : List Nat) (L : Nat)
    (hlen : bytes.length = L) (hb : ∀ b ∈ bytes, b < 256) :
    (generateRandomStringBrowser bytes).length = 2 * L ∧
    (∀ c ∈ (generateRandomStringBrowser bytes).data, c ∈ hexDigits) ∧
    generateRandomStringSSR L = String.mk (List.replicate L '0') ∧
    (generateRandomStringSSR L).length = L ∧
    (0 < L → (generateRandomStringBrowser bytes).length ≠ (generateRandomStringSSR L).length) := by
  have hdata := generateRandomStringBrowser_data bytes
  have hblen : (generateRandomStringBrowser bytes).length = 2 * L := by
    show (generateRandomStringBrowser bytes).data.length = 2 * L
    rw [hdata, List.length_flatten, hexBlocks_length_sum, hlen]
  have hssrlen : (generateRandomStringSSR L).length = L := by
    show (List.replicate L '0').length = L
    simp
  refine ⟨hblen, ?_, rfl, hssrlen, ?_⟩
  · intro c hc
    rw [hdata] at hc
    obtain ⟨cs, hcs, hccs⟩ := List.mem_flatten.mp hc
    obtain ⟨s, hs, rfl⟩ := List.mem_map.mp hcs
    obtain ⟨b, hbmem, rfl⟩ := List.mem_map.mp hs
    have heq : (byteToHexPadded b).data = [toHexDigit (b / 16), toHexDigit (b % 16)] := rfl
    rw [heq] at hccs
    have hblt := hb b hbmem
    simp only [List.mem_cons, List.not_mem_nil, or_false] at hccs
    rcases hccs with h1 | h1
    · exact h1 ▸ toHexDigit_mem_hexDigits _ (Nat.div_lt_of_lt_mul hblt)
    · exact h1 ▸ toHexDigit_mem_hexDigits _ (Nat.mod_lt _ (by norm_num))
  · intro hL
    rw [hblen, hssrlen]
    omega

/-- Witness for C9 with three concrete random bytes. -/
theorem claim9_random_string_shapes_witness :
    (generateRandomStringBrowser [0, 255, 171]).length = 6 ∧
    (generateRandomStringSSR 3).length = 3 ∧
    (generateRandomStringBrowser [0, 255, 171]).length ≠ (generateRandomStringSSR 3).length := by
  have h := claim9_random_string_shapes [0, 255, 171] 3 (by decide) (by decide)
  exact ⟨by simpa using h.1, h.2.2.2.1, h.2.2.2.2 (by decide)⟩

/-- Counterexample to claim C1: in the concrete mutual-proposal run both
participants do reach `connected` with each other, and the crossing `matched`
events are exactly the ones each side published — but A adopts B's proposed
chat session id (`cs-bob`) while B adopts A's (`cs-alice`), so the two sides
do **not** share one single identical `chatSessionId`. -/
theorem claim1_counterexample :
    (processMatchmakingEvent tieCtxA 10000 tieFrA startLookingState tieLookB).published =
      [tieMatchedA] ∧
    (processMatchmakingEvent tieCtxB 10000 tieFrB startLookingState tieLookA).published =
      [tieMatchedB] ∧
    tieStateA.status = ConnStatus.connected ∧
    tieStateB.status = ConnStatus.connected ∧
    tieStateA.partner = some { id := "bob-pk", chatSessionId := "cs-bob" } ∧
    tieStateB.partner = some { id := "alice-pk", chatSessionId := "cs-alice" } ∧
    tieStateA.partner.map PartnerInfo.chatSessionId ≠
      tieStateB.partner.map PartnerInfo.chatSessionId := by
  decide

/-- Claim C1 as amended: when two distinct participants simultaneously
observe each other `looking` and both propose, each side publishes a
`matched` proposal carrying its own freshly generated chat session id, and
each side — treating the first-received `matched` event naming itself as
authoritative — ends `connected` with the other as partner but holding the
*other* side's proposed chat session id. The two proposals cross, so A holds
B's id and B holds A's; the two sides share one identical id only when the
two independently generated proposals happen to coincide. -/
theorem claim1_mutual_proposals_swap_ids
    (pA pB sessA sessB bidA bidB lidA lsigA sA lidB lsigB sB : String)
    (fA fB fA2 fB2 : Fresh)
    (hAB : pA ≠ pB) (hpA : pA ≠ "") (hpB : pB ≠ "")
    (hcsA : fA.cs ≠ "") (hcsB : fB.cs ≠ "") :
    (processMatchmakingEvent ⟨pA, sessA, bidA⟩ 10000 fA startLookingState
        (mkMatchmakingEvent lidB lsigB 10000 pB sessB "looking" "" bidB bidB "" sB)).published =
      [mkMatchmakingEvent fA.evId fA.sig 10000 pA sessA "matched" pB bidA bidA fA.cs fA.sess] ∧
    (processMatchmakingEvent ⟨pB, sessB, bidB⟩ 10000 fB startLookingState
        (mkMatchmakingEvent lidA lsigA 10000 pA sessA "looking" "" bidA bidA "" sA)).published =
      [mkMatchmakingEvent fB.evId fB.sig 10000 pB sessB "matched" pA bidB bidB fB.cs fB.sess] ∧
    (mutualProposalRun ⟨pA, sessA, bidA⟩ fA fA2 10000 11000
        (mkMatchmakingEvent lidB lsigB 10000 pB sessB "looking" "" bidB bidB "" sB)
        (mkMatchmakingEvent fB.evId fB.sig 10000 pB sessB "matched" pA bidB bidB fB.cs fB.sess)).status
      = ConnStatus.connected ∧
    (mutualProposalRun ⟨pB, sessB, bidB⟩ fB fB2 10000 11000
        (mkMatchmakingEvent lidA lsigA 10000 pA sessA "looking" "" bidA bidA "" sA)
        (mkMatchmakingEvent fA.evId fA.sig 10000 pA sessA "matched" pB bidA bidA fA.cs fA.sess)).status
      = ConnStatus.connected ∧
    (mutualProposalRun ⟨pA, sessA, bidA⟩ fA fA2 10000 11000
        (mkMatchmakingEvent lidB lsigB 10000 pB sessB "looking" "" bidB bidB "" sB)
        (mkMatchmakingEvent fB.evId fB.sig 10000 pB sessB "matched" pA bidB bidB fB.cs fB.sess)).partner
      = some { id := pB, chatSessionId := fB.cs } ∧
    (mutualProposalRun ⟨pB, sessB, bidB⟩ fB fB2 10000 11000
        (mkMatchmakingEvent lidA lsigA 10000 pA sessA "looking" "" bidA bidA "" sA)
        (mkMatchmakingEvent fA.evId fA.sig 10000 pA sessA "matched" pB bidA bidA fA.cs fA.sess)).partner
      = some { id := pA, chatSessionId := fA.cs } := by
  have step1A : processMatchmakingEvent ⟨pA, sessA, bidA⟩ 10000 fA startLookingState
      (mkMatchmakingEvent lidB lsigB 10000 pB sessB "looking" "" bidB bidB "" sB) =
      { status := ConnStatus.connecting, partner := none,
        pending := some { pubkey := pB, sessionId := fA.cs, timestamp := 10000 },
        isConnecting := true, lastMatchAttempt := 10000,
        published := [mkMatchmakingEvent fA.evId fA.sig 10000 pA sessA "matched" pB bidA bidA
          fA.cs fA.sess],
        chatSub := none } := by
    simp [processMatchmakingEvent, handleLookingMatch, handlePotentialMatch, startLookingState,
      MMState.pendingPubkey, mkMatchmakingEvent, tagVal, hasPTag, Ne.symm hAB, hAB]
  have step1B : processMatchmakingEvent ⟨pB, sessB, bidB⟩ 10000 fB startLookingState
      (mkMatchmakingEvent lidA lsigA 10000 pA sessA "looking" "" bidA bidA "" sA) =
      { status := ConnStatus.connecting, partner := none,
        pending := some { pubkey := pA, sessionId := fB.cs, timestamp := 10000 },
        isConnecting := true, lastMatchAttempt := 10000,
        published := [mkMatchmakingEvent fB.evId fB.sig 10000 pB sessB "matched" pA bidB bidB
          fB.cs fB.sess],
        chatSub := none } := by
    simp [processMatchmakingEvent, handleLookingMatch, handlePotentialMatch, startLookingState,
      MMState.pendingPubkey, mkMatchmakingEvent, tagVal, hasPTag, Ne.symm hAB, hAB]
  have step2A : processMatchmakingEvent ⟨pA, sessA, bidA⟩ 11000 fA2
      { status := ConnStatus.connecting, partner := none,
        pending := some { pubkey := pB, sessionId := fA.cs, timestamp := 10000 },
        isConnecting := true, lastMatchAttempt := 10000,
        published := [mkMatchmakingEvent fA.evId fA.sig 10000 pA sessA "matched" pB bidA bidA
          fA.cs fA.sess],
        chatSub := none }
      (mkMatchmakingEvent fB.evId fB.sig 10000 pB sessB "matched" pA bidB bidB fB.cs fB.sess) =
      { status := ConnStatus.connected,
        partner := some { id := pB, chatSessionId := fB.cs },
        pending := none, isConnecting := false, lastMatchAttempt := 10000,
        published := [mkMatchmakingEvent fA.evId fA.sig 10000 pA sessA "matched" pB bidA bidA
          fA.cs fA.sess],
        chatSub := some (pB, fB.cs) } := by
    simp [processMatchmakingEvent, handleLookingMatch, handlePotentialMatch,
      handleMatchConfirmation, MMState.pendingPubkey, mkMatchmakingEvent, tagVal, hasPTag,
      Ne.symm hAB, hAB, hpA, hcsB]
  have step2B : processMatchmakingEvent ⟨pB, sessB, bidB⟩ 11000 fB2
      { status := ConnStatus.connecting, partner := none,
        pending := some { pubkey := pA, sessionId := fB.cs, timestamp := 10000 },
        isConnecting := true, lastMatchAttempt := 10000,
        published := [mkMatchmakingEvent fB.evId fB.sig 10000 pB sessB "matched" pA bidB bidB
          fB.cs fB.sess],
        chatSub := none }
      (mkMatchmakingEvent fA.evId fA.sig 10000 pA sessA "matched" pB bidA bidA fA.cs fA.sess) =
      { status := ConnStatus.connected,
        partner := some { id := pA, chatSessionId := fA.cs },
        pending := none, isConnecting := false, lastMatchAttempt := 10000,
        published := [mkMatchmakingEvent fB.evId fB.sig 10000 pB sessB "matched" pA bidB bidB
          fB.cs fB.sess],
        chatSub := some (pA, fA.cs) } := by
    simp [processMatchmakingEvent, handleLookingMatch, handlePotentialMatch,
      handleMatchConfirmation, MMState.pendingPubkey, mkMatchmakingEvent, tagVal, hasPTag,
      Ne.symm hAB, hAB, hpB, hcsA]
  refine ⟨by rw [step1A], by rw [step1B], ?_, ?_, ?_, ?_⟩ <;>
    unfold mutualProposalRun <;>
    first
      | (rw [step1A, step2A])
      | (rw [step1B, step2B])

/-- Witness for the amended C1 at the concrete tie-break run. -/
theorem claim1_mutual_proposals_swap_ids_witness :
    tieStateA.partner = some { id := "bob-pk", chatSessionId := "cs-bob" } ∧
    tieStateB.partner = some { id := "alice-pk", chatSessionId := "cs-alice" } := by
  have h := claim1_mutual_proposals_swap_ids "alice-pk" "bob-pk" "sess-alice" "sess-bob"
    "bid-alice" "bid-bob" "l-a" "ls-a" "x" "l-b" "ls-b" "x" tieFrA tieFrB tieFrA2 tieFrB2
    (by decide) (by decide) (by decide) (by decide) (by decide)
  exact ⟨h.2.2.2.2.1, h.2.2.2.2.2⟩

end Omestr
